import Mathlib

/-!
# Verification of `src/Decorators.ts` (platapi decorator facade)

This file gives a shallow embedding of the decorator layer in
`src/Decorators.ts` and proves the specified properties of it.

The file set contains only the facade: the registration utilities
(`Utils.generateHTTPMethodDecorator`, `Utils.generateParameterDecorator`,
`Utils.generateParameterSourceDecorator`, `Utils.generateMethodDecorator`)
and the requirement-record types live in excluded modules.  Those parts are
modelled from the specification and are marked `Modelled from the spec:` in
their doc comments.  Everything visible in `Decorators.ts` itself — the
argument lists of every call, the literal requirement fragments, the
`toLowerCase` name transform, the `token.replace(/Bearer\s+/i, "")` value
transform, the `castArray` normalization, the `runBeforeMiddleware = false`
default and the empty `ErrorReturn` decorator body — is embedded directly
from the source.
-/

namespace PlatAPI

/-- Is `c` an ASCII uppercase letter (codepoints 65–90)? -/
def isAsciiUpper (c : Char) : Bool :=
  decide (65 ≤ c.toNat) && decide (c.toNat ≤ 90)

/-- ASCII case mapping of JavaScript `String.prototype.toLowerCase`:
an ASCII uppercase letter is shifted down by 32, every other character is
unchanged.  (The decorator source only ever lowercases header names; the
embedding covers the ASCII mapping of the builtin.) -/
def asciiToLower (c : Char) : Char :=
  if isAsciiUpper c then Char.ofNat (c.toNat + 32) else c

/-- `name.toLowerCase()` from `Header`'s name transform in `Decorators.ts`,
applied characterwise. -/
def jsToLowerCase (s : String) : String :=
  ⟨s.data.map asciiToLower⟩

/-- Does `s` contain an ASCII uppercase letter? -/
def hasAsciiUppercase (s : String) : Bool :=
  s.data.any isAsciiUpper

/-- The JavaScript regex whitespace class `\s` (without the `u` flag):
tab through carriage return, space, NBSP, Ogham space mark, the
U+2000–U+200A spaces, line/paragraph separators, narrow NBSP, medium
mathematical space, ideographic space and the BOM. -/
def isJsWhitespace (c : Char) : Bool :=
  let n := c.toNat
  (decide (9 ≤ n) && decide (n ≤ 13)) || n == 32 || n == 160 || n == 5760 ||
    (decide (8192 ≤ n) && decide (n ≤ 8202)) || n == 8232 || n == 8233 ||
    n == 8239 || n == 8287 || n == 12288 || n == 65279

/-- Case-insensitive character comparison used by the `i` flag of
`/Bearer\s+/i` on its ASCII pattern letters: both sides are ASCII
case-folded and compared. -/
def ciCharEq (a b : Char) : Bool :=
  asciiToLower a == asciiToLower b

/-- If `pat` is a case-insensitive prefix of `l`, return the remainder of
`l` after that prefix. -/
def ciDropPattern : List Char → List Char → Option (List Char)
  | [], rest => some rest
  | _ :: _, [] => none
  | p :: ps, c :: cs => if ciCharEq p c then ciDropPattern ps cs else none

/-- Try to match `/Bearer\s+/i` at the start of `l`: the six letters of
`bearer` case-insensitively, then at least one `\s` character, consumed
greedily.  On success returns what follows the match. -/
def bearerMatchAt (l : List Char) : Option (List Char) :=
  match ciDropPattern "bearer".data l with
  | none => none
  | some rest =>
    match rest with
    | [] => none
    | c :: cs => if isJsWhitespace c then some (cs.dropWhile isJsWhitespace) else none

/-- `token.replace(/Bearer\s+/i, "")` from `BearerToken` in
`Decorators.ts`, on character lists: the regex is not global and not
anchored, so only the leftmost match is located and removed; with no match
the input is returned unchanged. -/
def replaceFirstBearer : List Char → List Char
  | [] => []
  | c :: rest =>
    match bearerMatchAt (c :: rest) with
    | some after => after
    | none => c :: replaceFirstBearer rest

/-- Does `/Bearer\s+/i` match anywhere in `l`? -/
def hasBearerMatch : List Char → Bool
  | [] => false
  | c :: rest => (bearerMatchAt (c :: rest)).isSome || hasBearerMatch rest

/-- The value transform attached by `BearerToken`:
`token => token.replace(/Bearer\s+/i, "")`. -/
def bearerTokenValueTransform (s : String) : String :=
  ⟨replaceFirstBearer s.data⟩

/-- One OpenAPI security scheme, with the `SecuritySchemeObject` fields the
source uses (`description`, `type`, `scheme`, `bearerFormat`). -/
structure SecurityScheme where
  description : Option String
  type : String
  scheme : Option String
  bearerFormat : Option String

/-- The security-scheme contribution a parameter decorator may carry
(the `{ securitySchemes: [...] }` object passed by `BearerToken`). -/
structure SecurityContribution where
  securitySchemes : List SecurityScheme

/-- Modelled from the spec: the Parameter Requirement record — source
location path, single-value flag, required flag, optional name transform,
optional value transform, optional security-scheme contribution.  `none`
stands for a field left `undefined`. -/
structure PlatAPIInputParameterRequirement where
  sourcePath : Option (List String)
  isSingleValue : Option Bool
  required : Option Bool
  nameTransform : Option (String → String)
  valueTransform : Option (String → String)
  securityContribution : Option SecurityContribution

/-- Modelled from the spec: an Endpoint Requirement — HTTP verb and owning
method identity. -/
structure EndpointRequirement where
  verb : String
  method : String

/-- The `requestValidator` record built by `ValidateRequest`:
`{ runBeforeMiddleware: ..., handler: ... }`. -/
structure RequestValidatorRecord (H : Type) where
  runBeforeMiddleware : Bool
  handler : H

/-- Modelled from the spec: the Method Requirement record — aggregated
optional fields: request validator, middleware list, response formatter and
content type, documentation override.  Handlers `H`, formatters `F` and
documentation fragments `D` are opaque host values, so they stay type
parameters. -/
structure PlatAPIMethodRequirement (H F D : Type) where
  requestValidator : Option (RequestValidatorRecord H)
  middleware : Option (List H)
  responseFormatter : Option F
  responseContentType : Option String
  docs : Option D

/-- The Method Requirement with every field absent; an object literal in the
source sets only the fields it mentions, all others are `undefined`. -/
def emptyMethodRequirement {H F D : Type} : PlatAPIMethodRequirement H F D :=
  ⟨none, none, none, none, none⟩

/-- An HTTP-verb method decorator, as configured by
`Utils.generateHTTPMethodDecorator`. -/
structure HTTPMethodDecorator where
  verb : String

/-- A parameter decorator carrying a fixed requirement record, as configured
by `Utils.generateParameterDecorator`. -/
structure ParameterDecorator where
  requirement : PlatAPIInputParameterRequirement

/-- A parameter-source decorator, holding exactly the configuration passed to
`Utils.generateParameterSourceDecorator`: the source path (a string or an
array of strings in the source), the single-value flag, the required flag,
the name transform, the value transform and the security contribution;
`none` stands for an omitted or `undefined` argument. -/
structure ParameterSourceDecorator where
  path : String ⊕ List String
  isSingleValue : Option Bool
  isRequired : Option Bool
  nameTransform : Option (String → String)
  valueTransform : Option (String → String)
  securityContribution : Option SecurityContribution

/-- A method decorator carrying a Method Requirement fragment, as configured
by `Utils.generateMethodDecorator`. -/
structure MethodDecorator (H F D : Type) where
  fragment : PlatAPIMethodRequirement H F D

/-- Modelled from the spec: `Utils.generateHTTPMethodDecorator(verb)`
(excluded "Utils" module) produces a method decorator for that verb. -/
def Utils.generateHTTPMethodDecorator (verb : String) : HTTPMethodDecorator :=
  ⟨verb⟩

/-- Modelled from the spec: `Utils.generateParameterDecorator(requirement)`
(excluded "Utils" module) produces a parameter decorator that registers the
given requirement record. -/
def Utils.generateParameterDecorator (requirement : PlatAPIInputParameterRequirement) :
    ParameterDecorator :=
  ⟨requirement⟩

/-- Modelled from the spec:
`Utils.generateParameterSourceDecorator(path, isSingleValue?, isRequired?, nameTransform?, valueTransform?, securityContribution?)`
(excluded "Utils" module) produces a parameter decorator bound to that
configuration. -/
def Utils.generateParameterSourceDecorator (path : String ⊕ List String)
    (isSingleValue : Option Bool) (isRequired : Option Bool)
    (nameTransform : Option (String → String))
    (valueTransform : Option (String → String))
    (securityContribution : Option SecurityContribution) : ParameterSourceDecorator :=
  ⟨path, isSingleValue, isRequired, nameTransform, valueTransform, securityContribution⟩

/-- Modelled from the spec: `Utils.generateMethodDecorator(fragment)`
(excluded "Utils" module) produces a method decorator that registers the
given Method Requirement fragment. -/
def Utils.generateMethodDecorator {H F D : Type} (fragment : PlatAPIMethodRequirement H F D) :
    MethodDecorator H F D :=
  ⟨fragment⟩

/-- `export const POST = Utils.generateHTTPMethodDecorator("POST")`. -/
def POST : HTTPMethodDecorator := Utils.generateHTTPMethodDecorator "POST"

/-- `export const ALL = Utils.generateHTTPMethodDecorator("ALL")`. -/
def ALL : HTTPMethodDecorator := Utils.generateHTTPMethodDecorator "ALL"

/-- `export const GET = Utils.generateHTTPMethodDecorator("GET")`. -/
def GET : HTTPMethodDecorator := Utils.generateHTTPMethodDecorator "GET"

/-- `export const PUT = Utils.generateHTTPMethodDecorator("PUT")`. -/
def PUT : HTTPMethodDecorator := Utils.generateHTTPMethodDecorator "PUT"

/-- `export const PATCH = Utils.generateHTTPMethodDecorator("PATCH")`. -/
def PATCH : HTTPMethodDecorator := Utils.generateHTTPMethodDecorator "PATCH"

/-- `export const DELETE = Utils.generateHTTPMethodDecorator("DELETE")`. -/
def DELETE : HTTPMethodDecorator := Utils.generateHTTPMethodDecorator "DELETE"

/-- `export const OPTIONS = Utils.generateHTTPMethodDecorator("OPTIONS")`. -/
def OPTIONS : HTTPMethodDecorator := Utils.generateHTTPMethodDecorator "OPTIONS"

/-- `export const HEAD = Utils.generateHTTPMethodDecorator("HEAD")`. -/
def HEAD : HTTPMethodDecorator := Utils.generateHTTPMethodDecorator "HEAD"

/-- `export const TRACE = Utils.generateHTTPMethodDecorator("TRACE")`. -/
def TRACE : HTTPMethodDecorator := Utils.generateHTTPMethodDecorator "TRACE"

/-- `Param(requirements)` forwards an arbitrary requirement record. -/
def Param (requirements : PlatAPIInputParameterRequirement) : ParameterDecorator :=
  Utils.generateParameterDecorator requirements

/-- `BodyPart = generateParameterSourceDecorator(["request", "body"])`. -/
def BodyPart : ParameterSourceDecorator :=
  Utils.generateParameterSourceDecorator (Sum.inr ["request", "body"]) none none none none none

/-- `Body = generateParameterSourceDecorator(["request", "body"], false, false)`. -/
def Body : ParameterSourceDecorator :=
  Utils.generateParameterSourceDecorator (Sum.inr ["request", "body"])
    (some false) (some false) none none none

/-- `Cookie = generateParameterSourceDecorator(["request", "cookies"])`. -/
def Cookie : ParameterSourceDecorator :=
  Utils.generateParameterSourceDecorator (Sum.inr ["request", "cookies"]) none none none none none

/-- `AllCookies = generateParameterSourceDecorator(["request", "cookies"], false)`. -/
def AllCookies : ParameterSourceDecorator :=
  Utils.generateParameterSourceDecorator (Sum.inr ["request", "cookies"])
    (some false) none none none none

/-- `Query = generateParameterSourceDecorator(["request", "query"])`. -/
def Query : ParameterSourceDecorator :=
  Utils.generateParameterSourceDecorator (Sum.inr ["request", "query"]) none none none none none

/-- `AllQuery = generateParameterSourceDecorator(["request", "query"], false)`. -/
def AllQuery : ParameterSourceDecorator :=
  Utils.generateParameterSourceDecorator (Sum.inr ["request", "query"])
    (some false) none none none none

/-- `Path = generateParameterSourceDecorator(["request", "params"])`. -/
def Path : ParameterSourceDecorator :=
  Utils.generateParameterSourceDecorator (Sum.inr ["request", "params"]) none none none none none

/-- `AllPath = generateParameterSourceDecorator(["request", "params"], false)`. -/
def AllPath : ParameterSourceDecorator :=
  Utils.generateParameterSourceDecorator (Sum.inr ["request", "params"])
    (some false) none none none none

/-- `Header = generateParameterSourceDecorator(["request", "headers"], true, true, name => name.toLowerCase())`. -/
def Header : ParameterSourceDecorator :=
  Utils.generateParameterSourceDecorator (Sum.inr ["request", "headers"])
    (some true) (some true) (some jsToLowerCase) none none

/-- `AllHeaders = generateParameterSourceDecorator(["request", "headers"], false)`. -/
def AllHeaders : ParameterSourceDecorator :=
  Utils.generateParameterSourceDecorator (Sum.inr ["request", "headers"])
    (some false) none none none none

/-- `BearerToken = generateParameterSourceDecorator(["request", "headers", "authorization"], false, false, undefined, token => token.replace(/Bearer\s+/i, ""), { securitySchemes: [{ description: "JWT Bearer Token", type: "http", scheme: "bearer", bearerFormat: "JWT" }] })`. -/
def BearerToken : ParameterSourceDecorator :=
  Utils.generateParameterSourceDecorator (Sum.inr ["request", "headers", "authorization"])
    (some false) (some false) none (some bearerTokenValueTransform)
    (some ⟨[⟨some "JWT Bearer Token", "http", some "bearer", some "JWT"⟩]⟩)

/-- `Request = generateParameterSourceDecorator("request", false)`. -/
def Request : ParameterSourceDecorator :=
  Utils.generateParameterSourceDecorator (Sum.inl "request") (some false) none none none none

/-- `Response = generateParameterSourceDecorator("response", false)`. -/
def Response : ParameterSourceDecorator :=
  Utils.generateParameterSourceDecorator (Sum.inl "response") (some false) none none none none

/-- `Logger = generateParameterSourceDecorator(["response", "locals", "logger"], false)`. -/
def Logger : ParameterSourceDecorator :=
  Utils.generateParameterSourceDecorator (Sum.inr ["response", "locals", "logger"])
    (some false) none none none none

/-- `ValidateRequest(validator, runBeforeMiddleware = false)`: the second
argument is optional with default `false` (`none` models a call that omits
it); the fragment sets only `requestValidator`, with
`{ runBeforeMiddleware: runBeforeMiddleware, handler: validator }`. -/
def ValidateRequest {H F D : Type} (validator : H) (runBeforeMiddleware : Option Bool) :
    MethodDecorator H F D :=
  Utils.generateMethodDecorator
    { emptyMethodRequirement with
      requestValidator := some ⟨runBeforeMiddleware.getD false, validator⟩ }

/-- `Optional = Utils.generateParameterDecorator({ required: false })`. -/
def Optional : ParameterDecorator :=
  Utils.generateParameterDecorator ⟨none, none, some false, none, none, none⟩

/-- `Required = Utils.generateParameterDecorator({ required: true })`. -/
def Required : ParameterDecorator :=
  Utils.generateParameterDecorator ⟨none, none, some true, none, none, none⟩

/-- `FormatResponse(formatter, contentType?)` sets the response formatter
and the (possibly omitted) content type. -/
def FormatResponse {H F D : Type} (formatter : F) (contentType : Option String) :
    MethodDecorator H F D :=
  Utils.generateMethodDecorator
    { (@emptyMethodRequirement H F D) with
      responseFormatter := some formatter
      responseContentType := contentType }

/-- lodash `castArray`: an array is returned as is, any other value is
wrapped in a one-element array.  The union argument of `Use` is modelled as
a sum. -/
def castArray {H : Type} : H ⊕ List H → List H
  | Sum.inl x => [x]
  | Sum.inr xs => xs

/-- `Use(middleware)` sets only the `middleware` field, normalized with
`castArray`. -/
def Use {H F D : Type} (middleware : H ⊕ List H) : MethodDecorator H F D :=
  Utils.generateMethodDecorator
    { emptyMethodRequirement with middleware := some (castArray middleware) }

/-- `Docs(openAPIDocs)` sets only the `docs` field. -/
def Docs {H F D : Type} (openAPIDocs : D) : MethodDecorator H F D :=
  Utils.generateMethodDecorator
    { (@emptyMethodRequirement H F D) with docs := some openAPIDocs }

/-- Modelled from the spec: the per-class metadata store owned by the
excluded registration utility.  Applying a decorator records one requirement
against the owning method (and, for parameter decorators, the parameter
index). -/
structure MetadataStore (H F D : Type) where
  endpoints : List EndpointRequirement
  paramAttachments : List (String × Nat × PlatAPIInputParameterRequirement)
  methodAttachments : List (String × PlatAPIMethodRequirement H F D)

/-- Modelled from the spec: applying an HTTP-verb decorator to a method
attaches an endpoint requirement with the decorator's verb and the owning
method identity. -/
def applyHTTPMethodDecorator {H F D : Type} (d : HTTPMethodDecorator)
    (store : MetadataStore H F D) (method : String) : MetadataStore H F D :=
  { store with endpoints := ⟨d.verb, method⟩ :: store.endpoints }

/-- Modelled from the spec: applying a parameter decorator attaches its
requirement record against the owning method and parameter index. -/
def applyParameterDecorator {H F D : Type} (d : ParameterDecorator)
    (store : MetadataStore H F D) (method : String) (index : Nat) :
    MetadataStore H F D :=
  { store with paramAttachments := (method, index, d.requirement) :: store.paramAttachments }

/-- Modelled from the spec: applying a method decorator attaches its Method
Requirement fragment against the owning method. -/
def applyMethodDecorator {H F D : Type} (d : MethodDecorator H F D)
    (store : MetadataStore H F D) (method : String) : MetadataStore H F D :=
  { store with methodAttachments := (method, d.fragment) :: store.methodAttachments }

/-- The source name a parameter-source decorator records for a given
parameter name: the name sent through the decorator's name transform when
one is configured, the name itself otherwise. -/
def sourceNameOf (d : ParameterSourceDecorator) (name : String) : String :=
  match d.nameTransform with
  | some f => f name
  | none => name

/-- The configured path as a list (`"request"` and `["request", "body"]`
are both accepted by the source). -/
def pathList : String ⊕ List String → List String
  | Sum.inl s => [s]
  | Sum.inr l => l

/-- Modelled from the spec: a parameter-source decorator used as a factory,
e.g. `Header("X")`, produces a parameter requirement whose source location
path is the configured path extended by the (name-transformed) source name,
and which carries the configured flags, value transform and security
contribution. -/
def ParameterSourceDecorator.factoryRequirement (d : ParameterSourceDecorator)
    (name : String) : PlatAPIInputParameterRequirement :=
  { sourcePath := some (pathList d.path ++ [sourceNameOf d name])
    isSingleValue := d.isSingleValue
    required := d.isRequired
    nameTransform := d.nameTransform
    valueTransform := d.valueTransform
    securityContribution := d.securityContribution }

/-- `ErrorReturn = <E>() => (target, propertyKey, descriptor) => {}`: the
factory takes no runtime argument and returns a decorator whose body is
empty.  The decorator is modelled as acting on the metadata store, the
target, the property key and the descriptor; the empty body registers
nothing and returns `undefined` (`none`), meaning the original descriptor
stays in effect. -/
def ErrorReturn {H F D Target Descr : Type} (_ : Unit)
    (store : MetadataStore H F D) (_target : Target) (_propertyKey : String)
    (_descriptor : Descr) : MetadataStore H F D × Option Descr :=
  (store, none)

/-- `export const Throws = ErrorReturn`. -/
def Throws {H F D Target Descr : Type} :
    Unit → MetadataStore H F D → Target → String → Descr →
      MetadataStore H F D × Option Descr :=
  @ErrorReturn H F D Target Descr

lemma char_toNat_ofNat_valid (n : Nat) (h : n.isValidChar) : (Char.ofNat n).toNat = n := by
  simp [Char.ofNat, h, Char.ofNatAux, Char.toNat, UInt32.toNat, UInt32.ofNat']

lemma isAsciiUpper_asciiToLower (c : Char) : isAsciiUpper (asciiToLower c) = false := by
  by_cases h : isAsciiUpper c = true
  · have h65 : 65 ≤ c.toNat := by
      have := h
      unfold isAsciiUpper at this
      simp at this
      exact this.1
    have h90 : c.toNat ≤ 90 := by
      have := h
      unfold isAsciiUpper at this
      simp at this
      exact this.2
    have hv : (c.toNat + 32).isValidChar := Or.inl (by omega)
    unfold asciiToLower
    rw [if_pos h]
    unfold isAsciiUpper
    rw [char_toNat_ofNat_valid _ hv]
    simp
    omega
  · unfold asciiToLower
    rw [if_neg h]
    simpa using h

lemma hasAsciiUppercase_jsToLowerCase (s : String) :
    hasAsciiUppercase (jsToLowerCase s) = false := by
  unfold hasAsciiUppercase jsToLowerCase
  simp [List.any_map, Function.comp, isAsciiUpper_asciiToLower]

lemma replaceFirstBearer_of_no_match :
    ∀ l : List Char, hasBearerMatch l = false → replaceFirstBearer l = l := by
  intro l
  induction l with
  | nil => intro _; rfl
  | cons c rest ih =>
    intro h
    unfold hasBearerMatch at h
    rw [Bool.or_eq_false_iff] at h
    unfold replaceFirstBearer
    cases hm : bearerMatchAt (c :: rest) with
    | some a => rw [hm] at h; simp at h
    | none => rw [ih h.2]

/-- C1: each of the nine HTTP verb decorators (POST, ALL, GET, PUT, PATCH,
DELETE, OPTIONS, HEAD, TRACE), applied to a method, attaches an endpoint
requirement whose verb field equals that decorator's verb. -/
theorem verb_decorators_attach_their_verb {H F D : Type}
    (store : MetadataStore H F D) (m : String) :
    (applyHTTPMethodDecorator POST store m).endpoints = ⟨"POST", m⟩ :: store.endpoints ∧
    (applyHTTPMethodDecorator ALL store m).endpoints = ⟨"ALL", m⟩ :: store.endpoints ∧
    (applyHTTPMethodDecorator GET store m).endpoints = ⟨"GET", m⟩ :: store.endpoints ∧
    (applyHTTPMethodDecorator PUT store m).endpoints = ⟨"PUT", m⟩ :: store.endpoints ∧
    (applyHTTPMethodDecorator PATCH store m).endpoints = ⟨"PATCH", m⟩ :: store.endpoints ∧
    (applyHTTPMethodDecorator DELETE store m).endpoints = ⟨"DELETE", m⟩ :: store.endpoints ∧
    (applyHTTPMethodDecorator OPTIONS store m).endpoints = ⟨"OPTIONS", m⟩ :: store.endpoints ∧
    (applyHTTPMethodDecorator HEAD store m).endpoints = ⟨"HEAD", m⟩ :: store.endpoints ∧
    (applyHTTPMethodDecorator TRACE store m).endpoints = ⟨"TRACE", m⟩ :: store.endpoints :=
  ⟨rfl, rfl, rfl, rfl, rfl, rfl, rfl, rfl, rfl⟩

/-- C2: the value transform attached by `BearerToken`, applied to
`"Bearer abc123"`, returns `"abc123"`. -/
theorem bearerToken_transform_strips_bearer :
    BearerToken.valueTransform = some bearerTokenValueTransform ∧
    bearerTokenValueTransform "Bearer abc123" = "abc123" :=
  ⟨rfl, by decide⟩

/-- C3: the name transform attached by `Header` maps every source name to
its lowercase form (the result never contains an ASCII uppercase letter);
in particular `Header("X")` produces a requirement whose source name is
`"x"`. -/
theorem header_name_transform_lowercases :
    Header.nameTransform = some jsToLowerCase ∧
    sourceNameOf Header "X" = "x" ∧
    (Header.factoryRequirement "X").sourcePath = some ["request", "headers", "x"] ∧
    ∀ name : String, hasAsciiUppercase (sourceNameOf Header name) = false := by
  refine ⟨rfl, by decide, by decide, ?_⟩
  intro name
  exact hasAsciiUppercase_jsToLowerCase name

/-- C4: `Use(a)` attaches a method requirement whose middleware field is
`[a]`, and `Use([a, b])` one whose middleware field is `[a, b]`: a single
function and a list are normalized to the same list shape. -/
theorem use_normalizes_middleware_to_list (H F D : Type) (a b : H) :
    ((@Use H F D) (Sum.inl a)).fragment.middleware = some [a] ∧
    ((@Use H F D) (Sum.inr [a, b])).fragment.middleware = some [a, b] :=
  ⟨rfl, rfl⟩

/-- C5: the parameter requirements of `Optional` and `Required` agree on
every field except the required flag, which is `false` for `Optional` and
`true` for `Required`. -/
theorem optional_required_differ_only_in_required_flag :
    Optional.requirement.required = some false ∧
    Required.requirement.required = some true ∧
    Optional.requirement.sourcePath = Required.requirement.sourcePath ∧
    Optional.requirement.isSingleValue = Required.requirement.isSingleValue ∧
    Optional.requirement.nameTransform = Required.requirement.nameTransform ∧
    Optional.requirement.valueTransform = Required.requirement.valueTransform ∧
    Optional.requirement.securityContribution = Required.requirement.securityContribution :=
  ⟨rfl, rfl, rfl, rfl, rfl, rfl, rfl⟩

/-- C6: `ValidateRequest(v, b)` attaches a method requirement whose
`requestValidator` is the record with handler `v` and
`runBeforeMiddleware` `b`, and whose other fields are all unset. -/
theorem validateRequest_sets_only_requestValidator (H F D : Type) (v : H) (b : Bool) :
    ((@ValidateRequest H F D) v (some b)).fragment.requestValidator = some ⟨b, v⟩ ∧
    ((@ValidateRequest H F D) v (some b)).fragment.middleware = none ∧
    ((@ValidateRequest H F D) v (some b)).fragment.responseFormatter = none ∧
    ((@ValidateRequest H F D) v (some b)).fragment.responseContentType = none ∧
    ((@ValidateRequest H F D) v (some b)).fragment.docs = none :=
  ⟨rfl, rfl, rfl, rfl, rfl⟩

/-- C7: the decorator returned by `ErrorReturn()` is a no-op: it registers
nothing in the metadata store, returns `undefined` so the original
descriptor stays in effect, and `Throws` denotes the same factory. -/
theorem errorReturn_is_noop (H F D T P : Type) (store : MetadataStore H F D)
    (t : T) (k : String) (d : P) :
    ErrorReturn () store t k d = (store, (none : Option P)) ∧
    ((ErrorReturn () store t k d).2.getD d = d) ∧
    @Throws H F D T P = @ErrorReturn H F D T P :=
  ⟨rfl, rfl, rfl⟩

/-- C8: `BearerToken` is configured with source path
request→headers→authorization, single-value flag `false`, required flag
`false`, and a security contribution with exactly one scheme: type
`"http"`, scheme `"bearer"`, bearerFormat `"JWT"`, description
`"JWT Bearer Token"`. -/
theorem bearerToken_configuration :
    BearerToken.path = Sum.inr ["request", "headers", "authorization"] ∧
    BearerToken.isSingleValue = some false ∧
    BearerToken.isRequired = some false ∧
    BearerToken.securityContribution =
      some ⟨[⟨some "JWT Bearer Token", "http", some "bearer", some "JWT"⟩]⟩ :=
  ⟨rfl, rfl, rfl, rfl⟩

/-- C9: when the `runBeforeMiddleware` argument of `ValidateRequest` is
omitted, the attached validator requirement has
`runBeforeMiddleware = false`. -/
theorem validateRequest_default_runs_after_middleware (H F D : Type) (v : H) :
    ((@ValidateRequest H F D) v none).fragment.requestValidator = some ⟨false, v⟩ :=
  rfl

/-- C10: `BearerToken`'s value transform removes only the first
case-insensitive occurrence of `Bearer` followed by at least one
whitespace character, anywhere in the string: with no such occurrence
(`"Bearerabc"`, `"abc123"`) the value is unchanged, `"xBearer y"` becomes
`"xy"`, only the first of two occurrences is removed, the match is
case-insensitive with a greedy whitespace run, and in general a string
with no match is returned unchanged. -/
theorem bearer_transform_first_unanchored_occurrence :
    bearerTokenValueTransform "Bearerabc" = "Bearerabc" ∧
    bearerTokenValueTransform "abc123" = "abc123" ∧
    bearerTokenValueTransform "xBearer y" = "xy" ∧
    bearerTokenValueTransform "a Bearer b Bearer c" = "a b Bearer c" ∧
    bearerTokenValueTransform "xBEARER\t  y" = "xy" ∧
    (∀ l : List Char, hasBearerMatch l = false → replaceFirstBearer l = l) :=
  ⟨by decide, by decide, by decide, by decide, by decide,
    replaceFirstBearer_of_no_match⟩

/-- Witness for C10: the no-match hypothesis is satisfiable, e.g. by
`"Bearerabc"`. -/
theorem bearer_transform_first_unanchored_occurrence_witness :
    hasBearerMatch "Bearerabc".data = false ∧
    replaceFirstBearer "Bearerabc".data = "Bearerabc".data :=
  ⟨by decide,
    bearer_transform_first_unanchored_occurrence.2.2.2.2.2 "Bearerabc".data (by decide)⟩

end PlatAPI
